import Mathlib

/-!
Interchain-account registration keeper.

A shallow embedding of `modules/apps/27-interchain-accounts/keeper/account.go`:
the five keeper operations `InitInterchainAccount`, `RegisterInterchainAccount`,
`SetInterchainAccountAddress`, `GetInterchainAccountAddress`, `GetIBCAccount`
and the pure `GenerateAddress`, as state-passing functions over an explicit
context `Ctx` (the part of `sdk.Context` these operations read and write).

The collaborators the file calls but does not define (port keeper, scoped
capability keeper, message router, account keeper, KV store, hash, bech32) are
either fields of `Keeper` (when only their result matters) or small total
functions on `Ctx` (when they write state).
-/

namespace ICA

/-! ## Strings, errors -/

/-- A Go `[]byte`: a finite sequence of bytes. -/
abbrev Bytes := List UInt8

/-- A Go `string` is an immutable sequence of bytes, so the conversions
`[]byte(s)` and `string(b)` are the identity on the underlying bytes. -/
abbrev GoString := List UInt8

/-- The bytes of a string literal of the source. -/
def str (s : String) : GoString := s.toUTF8.data.toList

/-- Errors. The first three are the sentinels of `types/errors.go` used by
`account.go`; `ErrOwnerClaimed` is the capability keeper's sentinel; `external`
is any error produced by the message dispatcher; `wrap` is what
`sdkerrors.Wrap(parent, description)` builds. -/
inductive Err where
  | ErrPortAlreadyBound
  | ErrAccountAlreadyExist
  | ErrIBCAccountNotFound
  | ErrOwnerClaimed
  | external (msg : GoString)
  | wrap (parent : Err) (description : GoString)
  deriving DecidableEq, Repr

/-- The `sdkerrors.Wrap` call on a non-nil error. -/
def Wrap (err : Err) (description : GoString) : Err := Err.wrap err description

/-- The `errors.Is` test: `target` is this error or lies on its chain of causes. -/
def Err.Is : Err → Err → Bool
  | .wrap parent description, target =>
      decide (Err.wrap parent description = target) || Err.Is parent target
  | e, target => decide (e = target)

/-! ## Data model -/

/-- An object capability (`capabilitytypes.Capability`), identified by its index. -/
structure Capability where
  Index : Nat
  deriving DecidableEq, Repr

/-- Channel ordering (`channeltypes.Order`). -/
inductive Order where
  | NONE
  | UNORDERED
  | ORDERED
  deriving DecidableEq, Repr

/-- Channel handshake state (`channeltypes.State`). -/
inductive ChannelState where
  | UNINITIALIZED
  | INIT
  | TRYOPEN
  | OPEN
  | CLOSED
  deriving DecidableEq, Repr

/-- Counterparty end of a channel (`channeltypes.Counterparty`). -/
structure Counterparty where
  PortId : GoString
  ChannelId : GoString
  deriving DecidableEq, Repr

/-- A channel end (`channeltypes.Channel`). -/
structure Channel where
  State : ChannelState
  Ordering : Order
  Counterparty : Counterparty
  ConnectionHops : List GoString
  Version : GoString
  deriving DecidableEq, Repr

/-- The channel-open-init message (`channeltypes.MsgChannelOpenInit`). -/
structure MsgChannelOpenInit where
  PortId : GoString
  Channel : Channel
  Signer : GoString
  deriving DecidableEq, Repr

/-- Modelled from the spec: `channeltypes.NewMsgChannelOpenInit` (04-channel,
not among the sources): an open-initiation request for `portID` in state INIT
with the given ordering, hops and version, whose counterparty names
`counterpartyPortID` and no channel yet. The argument order is that of the call
in `InitInterchainAccount`. -/
def NewMsgChannelOpenInit (portID version : GoString) (channelOrder : Order)
    (connectionHops : List GoString) (counterpartyPortID signer : GoString) :
    MsgChannelOpenInit :=
  { PortId := portID
    Channel :=
      { State := ChannelState.INIT
        Ordering := channelOrder
        Counterparty := { PortId := counterpartyPortID, ChannelId := [] }
        ConnectionHops := connectionHops
        Version := version }
    Signer := signer }

/-- The base account of the account model (`authtypes.BaseAccount`); the address
is kept in its text form, as in the Go struct. The public key is nil for every
account built here and is left out. -/
structure BaseAccount where
  Address : GoString
  AccountNumber : Nat
  Sequence : Nat
  deriving DecidableEq, Repr

/-- An interchain account (`types.IBCAccount`): a base account and the port that
owns it. -/
structure IBCAccount where
  BaseAccount : BaseAccount
  AccountOwner : GoString
  deriving DecidableEq, Repr

/-- The accounts the account keeper can hold (`authtypes.AccountI`), as a tagged
variant: plain base accounts, module accounts, interchain accounts. -/
inductive AccountI where
  | base (a : BaseAccount)
  | module (a : BaseAccount) (name : GoString)
  | ibc (a : IBCAccount)
  deriving DecidableEq, Repr

/-- The text address of any account. -/
def AccountI.Address : AccountI → GoString
  | .base a => a.Address
  | .module a _ => a.Address
  | .ibc a => a.BaseAccount.Address

/-- The context: the state the keeper operations read and write.
* `ports`: the port authority, bound port identifier to its capability;
* `capabilities`: this module's scoped capability store, name to capability;
* `capIndex`: the next capability index;
* `dispatched`: the messages handed to the message dispatcher, oldest first;
* `accounts`: the account keeper's store, address bytes to account;
* `accountNumber`: the next account number;
* `store`: this module's KV store. -/
structure Ctx where
  ports : GoString → Option Capability
  capabilities : GoString → Option Capability
  capIndex : Nat
  dispatched : List MsgChannelOpenInit
  accounts : Bytes → Option AccountI
  accountNumber : Nat
  store : Bytes → Option Bytes

/-- The empty state: nothing bound, claimed, dispatched or stored. -/
def Ctx.empty : Ctx :=
  { ports := fun _ => none
    capabilities := fun _ => none
    capIndex := 0
    dispatched := []
    accounts := fun _ => none
    accountNumber := 0
    store := fun _ => none }

/-- The keeper: the constants and collaborators `account.go` uses through `k`
and through the packages `types`, `host`, `tmhash` and `sdk`, none of which is
among the sources.
* `GeneratePortId`, `PortPath`, `KeyOwnerAccount`: pure string functions;
* `Version`, `PortID`, `ModuleName`: the module's constants;
* `SumTruncated`: the truncated hash;
* `AccAddressString`, `AccAddressFromBech32`: the text form of an address and
  its decoding, with the law that decoding undoes encoding;
* `accountString`: the `String()` of an account;
* `handler`: the verdict of the routed message handler on a message. -/
structure Keeper where
  GeneratePortId : GoString → GoString → GoString
  PortPath : GoString → GoString
  KeyOwnerAccount : GoString → Bytes
  Version : GoString
  PortID : GoString
  ModuleName : GoString
  SumTruncated : Bytes → Bytes
  AccAddressString : Bytes → GoString
  AccAddressFromBech32 : GoString → Bytes
  fromBech32_string : ∀ a, AccAddressFromBech32 (AccAddressString a) = a
  accountString : AccountI → GoString
  handler : Ctx → MsgChannelOpenInit → Option Err

/-! ## Collaborators that write state -/

/-- A finite map with one key set. -/
def setAt {α β : Type} [DecidableEq α] (m : α → Option β) (key : α) (v : β) : α → Option β :=
  fun x => if x = key then some v else m x

/-- Modelled from the spec: `Keeper.IsBound` (keeper.go, not among the
sources): whether the port authority reports the port identifier as bound. -/
def IsBound (ctx : Ctx) (portId : GoString) : Bool :=
  (ctx.ports portId).isSome

/-- Modelled from the spec: `portKeeper.BindPort` (05-port, not among the
sources): creates a fresh capability and registers the port as owned under it
in the port authority. The source calls it only on a port that `IsBound`
reported unbound. -/
def BindPort (ctx : Ctx) (portId : GoString) : Capability × Ctx :=
  let key : Capability := { Index := ctx.capIndex }
  (key, { ctx with ports := setAt ctx.ports portId key, capIndex := ctx.capIndex + 1 })

/-- Modelled from the spec: `Keeper.ClaimCapability` (keeper.go, not among the
sources): claims the capability under `name` in this module's capability store;
fails when the name is already occupied. -/
def ClaimCapability (ctx : Ctx) (cap : Capability) (name : GoString) : Option Err × Ctx :=
  match ctx.capabilities name with
  | some _ => (some Err.ErrOwnerClaimed, ctx)
  | none => (none, { ctx with capabilities := setAt ctx.capabilities name cap })

/-- The routed handler applied to a message (`k.msgRouter.Handler(msg)(ctx, msg)`):
the message is recorded as dispatched and the handler's verdict is returned. The
channel subsystem's own state is outside this model. -/
def Handler (k : Keeper) (ctx : Ctx) (msg : MsgChannelOpenInit) : Option Err × Ctx :=
  (k.handler ctx msg, { ctx with dispatched := ctx.dispatched ++ [msg] })

/-- The account keeper's `GetAccount`: the account stored at the address, if any. -/
def GetAccount (ctx : Ctx) (addr : Bytes) : Option AccountI :=
  ctx.accounts addr

/-- The account keeper's `NewAccount`: sets the next account number on the
account and advances the counter (a `uint64`). -/
def NewAccount (ctx : Ctx) (acc : IBCAccount) : IBCAccount × Ctx :=
  ({ acc with BaseAccount := { acc.BaseAccount with AccountNumber := ctx.accountNumber } },
   { ctx with accountNumber := (ctx.accountNumber + 1) % 2 ^ 64 })

/-- The `GetAddress` of an account: its text address decoded. -/
def AccountI.GetAddress (k : Keeper) (acc : AccountI) : Bytes :=
  k.AccAddressFromBech32 acc.Address

/-- The account keeper's `SetAccount`: stores the account under its address. -/
def SetAccount (k : Keeper) (ctx : Ctx) (acc : AccountI) : Ctx :=
  { ctx with accounts := setAt ctx.accounts (acc.GetAddress k) acc }

/-- The `authtypes.NewBaseAccountWithAddress` constructor. -/
def NewBaseAccountWithAddress (k : Keeper) (address : Bytes) : BaseAccount :=
  { Address := k.AccAddressString address, AccountNumber := 0, Sequence := 0 }

/-- Modelled from the spec: `types.NewIBCAccount` (types, not among the
sources): the account record with the given base account and owning port. -/
def NewIBCAccount (ba : BaseAccount) (accountOwner : GoString) : IBCAccount :=
  { BaseAccount := ba, AccountOwner := accountOwner }

/-! ## The operations of `account.go` -/

/-- The entry point to registering an interchain account (`account.go`, 20-41). -/
def InitInterchainAccount (k : Keeper) (ctx : Ctx) (connectionId owner : GoString) :
    Option Err × Ctx :=
  let portId := k.GeneratePortId owner connectionId
  if IsBound ctx portId then
    (some (Wrap Err.ErrPortAlreadyBound portId), ctx)
  else
    let (portCap, ctx1) := BindPort ctx portId
    match ClaimCapability ctx1 portCap (k.PortPath portId) with
    | (some err, ctx2) =>
        (some (Wrap err (str "unable to bind to newly generated portID")), ctx2)
    | (none, ctx2) =>
        let msg := NewMsgChannelOpenInit portId k.Version Order.ORDERED [connectionId]
          k.PortID k.ModuleName
        match Handler k ctx2 msg with
        | (some err, ctx3) => (some err, ctx3)
        | (none, ctx3) => (none, ctx3)

/-- Determine the address of the account that will be created (`account.go`, 82-84). -/
def GenerateAddress (k : Keeper) (identifier : GoString) : Bytes :=
  k.SumTruncated identifier

/-- Write the index entry of a port (`account.go`, 63-68). -/
def SetInterchainAccountAddress (k : Keeper) (ctx : Ctx) (portId address : GoString) :
    GoString × Ctx :=
  let key := k.KeyOwnerAccount portId
  (address, { ctx with store := setAt ctx.store key address })

/-- Read the index entry of a port (`account.go`, 70-79). -/
def GetInterchainAccountAddress (k : Keeper) (ctx : Ctx) (portId : GoString) :
    Except Err GoString × Ctx :=
  let key := k.KeyOwnerAccount portId
  match ctx.store key with
  | none => (Except.error (Wrap Err.ErrIBCAccountNotFound portId), ctx)
  | some interchainAccountAddr => (Except.ok interchainAccountAddr, ctx)

/-- Register the interchain account of a port if it has not already been created
(`account.go`, 44-61). -/
def RegisterInterchainAccount (k : Keeper) (ctx : Ctx) (portId : GoString) :
    Except Err IBCAccount × Ctx :=
  let address := GenerateAddress k portId
  match GetAccount ctx address with
  | some account =>
      (Except.error (Wrap Err.ErrAccountAlreadyExist (k.accountString account)), ctx)
  | none =>
      let (interchainAccount, ctx1) :=
        NewAccount ctx (NewIBCAccount (NewBaseAccountWithAddress k address) portId)
      let ctx2 := SetAccount k ctx1 (AccountI.ibc interchainAccount)
      let (_, ctx3) :=
        SetInterchainAccountAddress k ctx2 portId interchainAccount.BaseAccount.Address
      (Except.ok interchainAccount, ctx3)

/-- Fetch the interchain account at an address (`account.go`, 86-97). -/
def GetIBCAccount (_k : Keeper) (ctx : Ctx) (addr : Bytes) : Except Err IBCAccount × Ctx :=
  match GetAccount ctx addr with
  | none => (Except.error (Wrap Err.ErrIBCAccountNotFound (str "there is no account")), ctx)
  | some (AccountI.ibc ibcAcc) => (Except.ok ibcAcc, ctx)
  | some _ =>
      (Except.error (Wrap Err.ErrIBCAccountNotFound (str "account is not an IBC account")), ctx)

/-! ## The Owner-Account Index invariant -/

/-- The Owner-Account Index invariant: whenever the index holds an entry with
address `A` for a port identifier, the account store holds, at the address `A`
denotes, an account whose address is exactly `A`. -/
def IndexInvariant (k : Keeper) (ctx : Ctx) : Prop :=
  ∀ portId A, (GetInterchainAccountAddress k ctx portId).1 = Except.ok A →
    ∃ acc, GetAccount ctx (k.AccAddressFromBech32 A) = some acc ∧ acc.Address = A

/-! ## Concrete keepers, for evaluating the operations -/

/-- A keeper whose dispatcher accepts every message: port identifiers are
`owner/connection`, port paths `ports/<id>`, index keys `owner/<id>`, the hash
keeps the first 20 bytes (zero padded) and addresses are their own text form. -/
def sampleKeeper : Keeper :=
  { GeneratePortId := fun owner connectionId => owner ++ str "/" ++ connectionId
    PortPath := fun portID => str "ports/" ++ portID
    KeyOwnerAccount := fun portId => str "owner/" ++ portId
    Version := str "ics27-1"
    PortID := str "interchain-account"
    ModuleName := str "interchainaccounts"
    SumTruncated := fun bz => (bz ++ List.replicate 20 0).take 20
    AccAddressString := fun a => a
    AccAddressFromBech32 := fun s => s
    fromBech32_string := fun _ => rfl
    accountString := fun acc => acc.Address
    handler := fun _ _ => none }

/-- The sample keeper with a dispatcher that rejects every message. -/
def rejectingKeeper : Keeper :=
  { sampleKeeper with handler := fun _ _ => some (Err.external (str "handshake rejected")) }

/-- The port identifier of the sample scenario. -/
def samplePort : GoString := sampleKeeper.GeneratePortId (str "owner-A") (str "connection-0")

/-- The account the sample keeper registers for the sample port in the empty state. -/
def sampleAccount : IBCAccount :=
  { BaseAccount := { Address := samplePort, AccountNumber := 0, Sequence := 0 }
    AccountOwner := samplePort }

/-- The state after registering the sample port in the empty state. -/
def sampleRegistered : Ctx :=
  (RegisterInterchainAccount sampleKeeper Ctx.empty samplePort).2

/-- The state after a successful `InitInterchainAccount` of the sample scenario. -/
def sampleInitiated : Ctx :=
  (InitInterchainAccount sampleKeeper Ctx.empty (str "connection-0") (str "owner-A")).2

/-- A state in which the path of the sample port is claimed although the port is
not bound. -/
def sampleClaimedOnly : Ctx :=
  { Ctx.empty with
      capabilities := setAt Ctx.empty.capabilities (sampleKeeper.PortPath samplePort)
        { Index := 7 } }

/-! ## The truncated hash -/

/-- Addition of 32-bit words. -/
def add32 (x y : Nat) : Nat := (x + y) % 2 ^ 32

/-- Rotation of a 32-bit word to the right. -/
def rotr32 (x n : Nat) : Nat := ((x >>> n) ||| (x <<< (32 - n))) % 2 ^ 32

/-- The four big-endian bytes of a 32-bit word. -/
def be32 (x : Nat) : Bytes :=
  [UInt8.ofNat (x >>> 24), UInt8.ofNat (x >>> 16), UInt8.ofNat (x >>> 8), UInt8.ofNat x]

/-- The 32-bit word whose big-endian bytes start the list. -/
def word32 (bs : List Nat) : Nat :=
  bs.getD 0 0 * 2 ^ 24 + bs.getD 1 0 * 2 ^ 16 + bs.getD 2 0 * 2 ^ 8 + bs.getD 3 0

/-- The round constants of SHA-256. -/
def sha256K : List Nat :=
  [0x428a2f98, 0x71374491, 0xb5c0fbcf, 0xe9b5dba5, 0x3956c25b, 0x59f111f1, 0x923f82a4, 0xab1c5ed5,
   0xd807aa98, 0x12835b01, 0x243185be, 0x550c7dc3, 0x72be5d74, 0x80deb1fe, 0x9bdc06a7, 0xc19bf174,
   0xe49b69c1, 0xefbe4786, 0x0fc19dc6, 0x240ca1cc, 0x2de92c6f, 0x4a7484aa, 0x5cb0a9dc, 0x76f988da,
   0x983e5152, 0xa831c66d, 0xb00327c8, 0xbf597fc7, 0xc6e00bf3, 0xd5a79147, 0x06ca6351, 0x14292967,
   0x27b70a85, 0x2e1b2138, 0x4d2c6dfc, 0x53380d13, 0x650a7354, 0x766a0abb, 0x81c2c92e, 0x92722c85,
   0xa2bfe8a1, 0xa81a664b, 0xc24b8b70, 0xc76c51a3, 0xd192e819, 0xd6990624, 0xf40e3585, 0x106aa070,
   0x19a4c116, 0x1e376c08, 0x2748774c, 0x34b0bcb5, 0x391c0cb3, 0x4ed8aa4a, 0x5b9cca4f, 0x682e6ff3,
   0x748f82ee, 0x78a5636f, 0x84c87814, 0x8cc70208, 0x90befffa, 0xa4506ceb, 0xbef9a3f7, 0xc67178f2]

/-- The eight working words of SHA-256. -/
structure Sha256State where
  a : Nat
  b : Nat
  c : Nat
  d : Nat
  e : Nat
  f : Nat
  g : Nat
  h : Nat
  deriving DecidableEq, Repr

/-- The initial hash value of SHA-256. -/
def sha256Init : Sha256State :=
  { a := 0x6a09e667, b := 0xbb67ae85, c := 0x3c6ef372, d := 0xa54ff53a,
    e := 0x510e527f, f := 0x9b05688c, g := 0x1f83d9ab, h := 0x5be0cd19 }

/-- The padded message: the bytes, a single 1 bit, zeros, and the bit length on
8 bytes, a multiple of 64 bytes in all. -/
def sha256Pad (bz : Bytes) : List Nat :=
  bz.map UInt8.toNat ++ [0x80] ++ List.replicate ((119 - bz.length % 64) % 64) 0 ++
    (List.range 8).map (fun i => (bz.length * 8) >>> (8 * (7 - i)) % 256)

/-- The message schedule of a 64-byte block: 64 words. -/
def sha256Schedule (block : List Nat) : List Nat :=
  (List.range 48).foldl
    (fun w _ =>
      let n := w.length
      let w15 := w.getD (n - 15) 0
      let w2 := w.getD (n - 2) 0
      let s0 := rotr32 w15 7 ^^^ rotr32 w15 18 ^^^ (w15 >>> 3)
      let s1 := rotr32 w2 17 ^^^ rotr32 w2 19 ^^^ (w2 >>> 10)
      w ++ [add32 (add32 (add32 (w.getD (n - 16) 0) s0) (w.getD (n - 7) 0)) s1])
    ((List.range 16).map (fun i => word32 (block.drop (4 * i))))

/-- One round of the compression function, on a round constant and a schedule word. -/
def sha256Round (s : Sha256State) (kw : Nat × Nat) : Sha256State :=
  let S1 := rotr32 s.e 6 ^^^ rotr32 s.e 11 ^^^ rotr32 s.e 25
  let ch := (s.e &&& s.f) ^^^ ((s.e ^^^ (2 ^ 32 - 1)) &&& s.g)
  let temp1 := add32 (add32 (add32 (add32 s.h S1) ch) kw.1) kw.2
  let S0 := rotr32 s.a 2 ^^^ rotr32 s.a 13 ^^^ rotr32 s.a 22
  let maj := (s.a &&& s.b) ^^^ (s.a &&& s.c) ^^^ (s.b &&& s.c)
  let temp2 := add32 S0 maj
  { a := add32 temp1 temp2, b := s.a, c := s.b, d := s.c,
    e := add32 s.d temp1, f := s.e, g := s.f, h := s.g }

/-- The compression of one 64-byte block into the hash value. -/
def sha256Block (s : Sha256State) (block : List Nat) : Sha256State :=
  let t := (sha256K.zip (sha256Schedule block)).foldl sha256Round s
  { a := add32 s.a t.a, b := add32 s.b t.b, c := add32 s.c t.c, d := add32 s.d t.d,
    e := add32 s.e t.e, f := add32 s.f t.f, g := add32 s.g t.g, h := add32 s.h t.h }

/-- Modelled from the spec: `tmhash.Sum` (tendermint, not among the sources), the
fixed-length hash behind the address derivation: the SHA-256 digest, 32 bytes. -/
def tmhash.Sum (bz : Bytes) : Bytes :=
  let padded := sha256Pad bz
  let s := (List.range (padded.length / 64)).foldl
    (fun s i => sha256Block s ((padded.drop (64 * i)).take 64)) sha256Init
  be32 s.a ++ be32 s.b ++ be32 s.c ++ be32 s.d ++ be32 s.e ++ be32 s.f ++ be32 s.g ++ be32 s.h

/-- Modelled from the spec: `tmhash.TruncatedSize`, the length the hash is
truncated to. -/
def tmhash.TruncatedSize : Nat := 20

/-- Modelled from the spec: `tmhash.SumTruncated` (tendermint, not among the
sources), the fixed-length truncated hash: the first `TruncatedSize` bytes of
the digest. -/
def tmhash.SumTruncated (bz : Bytes) : Bytes :=
  (tmhash.Sum bz).take tmhash.TruncatedSize

/-- Modelled from the spec: the fixed length of an address in the external
account model, in bytes. -/
def AddrLen : Nat := 20

/-- The sample keeper with the truncated hash in place of its stand-in. -/
def tmhashKeeper : Keeper :=
  { sampleKeeper with SumTruncated := tmhash.SumTruncated }

/-! ## Error messages -/

/-- The message of an error (its `Error()`): a wrapped error prints its
description, a colon and a blank, and the message of its parent; a dispatcher
error prints its own text; `text` gives the registered description of the
sentinels, which are not among the sources. -/
def Err.Error (text : Err → GoString) : Err → GoString
  | .wrap parent description => description ++ str ": " ++ Err.Error text parent
  | .external msg => msg
  | e => text e

/-- Sample descriptions of the sentinel errors. -/
def sampleErrorText : Err → GoString
  | .ErrPortAlreadyBound => str "port is already bound"
  | .ErrAccountAlreadyExist => str "account already exist"
  | .ErrIBCAccountNotFound => str "interchain account not found"
  | .ErrOwnerClaimed => str "given owner already claimed capability"
  | _ => []

/-! ## Lemmas on the hash -/

theorem tmhash_Sum_length (bz : Bytes) : (tmhash.Sum bz).length = 32 := by
  simp [tmhash.Sum, be32]

theorem tmhash_SumTruncated_length (bz : Bytes) : (tmhash.SumTruncated bz).length = 20 := by
  simp [tmhash.SumTruncated, tmhash.TruncatedSize, tmhash_Sum_length]

set_option maxRecDepth 100000 in
theorem tmhash_Sum_empty : tmhash.Sum [] =
    [227, 176, 196, 66, 152, 252, 28, 20, 154, 251, 244, 200, 153, 111, 185, 36, 39, 174, 65, 228,
     100, 155, 147, 76, 164, 149, 153, 27, 120, 82, 184, 85] := by
  decide

set_option maxRecDepth 100000 in
theorem tmhash_Sum_abc : tmhash.Sum (str "abc") =
    [186, 120, 22, 191, 143, 1, 207, 234, 65, 65, 64, 222, 93, 174, 34, 35, 176, 3, 97, 163,
     150, 23, 122, 156, 180, 16, 255, 97, 242, 0, 21, 173] := by
  decide

/-! ## Case lemmas for the two writing operations -/

theorem register_of_account_none (k : Keeper) (ctx : Ctx) (portId : GoString)
    (h : ctx.accounts (GenerateAddress k portId) = none) :
    RegisterInterchainAccount k ctx portId =
      (Except.ok { BaseAccount :=
                     { Address := k.AccAddressString (GenerateAddress k portId)
                       AccountNumber := ctx.accountNumber
                       Sequence := 0 }
                   AccountOwner := portId },
       { ctx with
           accountNumber := (ctx.accountNumber + 1) % 2 ^ 64
           accounts := setAt ctx.accounts (GenerateAddress k portId)
             (AccountI.ibc { BaseAccount :=
                               { Address := k.AccAddressString (GenerateAddress k portId)
                                 AccountNumber := ctx.accountNumber
                                 Sequence := 0 }
                             AccountOwner := portId })
           store := setAt ctx.store (k.KeyOwnerAccount portId)
             (k.AccAddressString (GenerateAddress k portId)) }) := by
  simp [RegisterInterchainAccount, GetAccount, h, NewAccount, NewIBCAccount,
    NewBaseAccountWithAddress, SetAccount, SetInterchainAccountAddress, AccountI.GetAddress,
    AccountI.Address, k.fromBech32_string]

theorem register_of_account_some (k : Keeper) (ctx : Ctx) (portId : GoString) (account : AccountI)
    (h : ctx.accounts (GenerateAddress k portId) = some account) :
    RegisterInterchainAccount k ctx portId =
      (Except.error (Wrap Err.ErrAccountAlreadyExist (k.accountString account)), ctx) := by
  simp [RegisterInterchainAccount, GetAccount, h]

theorem init_of_bound (k : Keeper) (ctx : Ctx) (connectionId owner : GoString)
    (h : IsBound ctx (k.GeneratePortId owner connectionId) = true) :
    InitInterchainAccount k ctx connectionId owner =
      (some (Wrap Err.ErrPortAlreadyBound (k.GeneratePortId owner connectionId)), ctx) := by
  simp [InitInterchainAccount, h]

theorem init_of_claim_occupied (k : Keeper) (ctx : Ctx) (connectionId owner : GoString)
    (c : Capability)
    (h : IsBound ctx (k.GeneratePortId owner connectionId) = false)
    (hc : ctx.capabilities (k.PortPath (k.GeneratePortId owner connectionId)) = some c) :
    InitInterchainAccount k ctx connectionId owner =
      (some (Wrap Err.ErrOwnerClaimed (str "unable to bind to newly generated portID")),
       (BindPort ctx (k.GeneratePortId owner connectionId)).2) := by
  simp [InitInterchainAccount, h, BindPort, ClaimCapability, hc]

theorem init_of_claim_free (k : Keeper) (ctx : Ctx) (connectionId owner : GoString)
    (h : IsBound ctx (k.GeneratePortId owner connectionId) = false)
    (hc : ctx.capabilities (k.PortPath (k.GeneratePortId owner connectionId)) = none) :
    InitInterchainAccount k ctx connectionId owner =
      Handler k
        (ClaimCapability (BindPort ctx (k.GeneratePortId owner connectionId)).2
          (BindPort ctx (k.GeneratePortId owner connectionId)).1
          (k.PortPath (k.GeneratePortId owner connectionId))).2
        (NewMsgChannelOpenInit (k.GeneratePortId owner connectionId) k.Version Order.ORDERED
          [connectionId] k.PortID k.ModuleName) := by
  simp only [InitInterchainAccount, h, BindPort, ClaimCapability, hc, Handler]
  cases hh : k.handler _ _ <;> simp_all

theorem init_accounts_store (k : Keeper) (ctx : Ctx) (connectionId owner : GoString) :
    (InitInterchainAccount k ctx connectionId owner).2.accounts = ctx.accounts ∧
      (InitInterchainAccount k ctx connectionId owner).2.store = ctx.store := by
  cases hb : IsBound ctx (k.GeneratePortId owner connectionId) with
  | true => rw [init_of_bound k ctx connectionId owner hb]; simp
  | false =>
      cases hc : ctx.capabilities (k.PortPath (k.GeneratePortId owner connectionId)) with
      | some c => rw [init_of_claim_occupied k ctx connectionId owner c hb hc]; simp [BindPort]
      | none =>
          rw [init_of_claim_free k ctx connectionId owner hb hc]
          simp [Handler, BindPort, ClaimCapability, hc]

theorem get_address_ok_iff (k : Keeper) (ctx : Ctx) (portId A : GoString) :
    (GetInterchainAccountAddress k ctx portId).1 = Except.ok A ↔
      ctx.store (k.KeyOwnerAccount portId) = some A := by
  cases hs : ctx.store (k.KeyOwnerAccount portId) <;>
    simp [GetInterchainAccountAddress, hs]

theorem get_address_state (k : Keeper) (ctx : Ctx) (portId : GoString) :
    (GetInterchainAccountAddress k ctx portId).2 = ctx := by
  cases hs : ctx.store (k.KeyOwnerAccount portId) <;>
    simp [GetInterchainAccountAddress, hs]

theorem getIBCAccount_state (k : Keeper) (ctx : Ctx) (addr : Bytes) :
    (GetIBCAccount k ctx addr).2 = ctx := by
  unfold GetIBCAccount
  split <;> rfl

theorem indexInvariant_of_eq (k : Keeper) (ctx ctx' : Ctx)
    (ha : ctx'.accounts = ctx.accounts) (hs : ctx'.store = ctx.store)
    (h : IndexInvariant k ctx) : IndexInvariant k ctx' := by
  intro portId A hA
  rw [get_address_ok_iff, hs] at hA
  obtain ⟨acc, hacc, hAddr⟩ := h portId A ((get_address_ok_iff k ctx portId A).2 hA)
  exact ⟨acc, by simpa [GetAccount, ha] using hacc, hAddr⟩

theorem indexInvariant_register (k : Keeper) (ctx : Ctx) (portId : GoString)
    (h : IndexInvariant k ctx) :
    IndexInvariant k (RegisterInterchainAccount k ctx portId).2 := by
  cases hacc : ctx.accounts (GenerateAddress k portId) with
  | some account =>
      rw [register_of_account_some k ctx portId account hacc]
      exact h
  | none =>
      rw [register_of_account_none k ctx portId hacc]
      intro portId' A hA
      rw [get_address_ok_iff] at hA
      simp only [setAt] at hA
      by_cases hk : k.KeyOwnerAccount portId' = k.KeyOwnerAccount portId
      · simp only [hk, if_true, Option.some.injEq] at hA
        subst hA
        refine ⟨AccountI.ibc
          { BaseAccount :=
              { Address := k.AccAddressString (GenerateAddress k portId)
                AccountNumber := ctx.accountNumber
                Sequence := 0 }
            AccountOwner := portId }, ?_, rfl⟩
        simp only [GetAccount, setAt, k.fromBech32_string, if_true]
      · simp only [hk, if_false] at hA
        obtain ⟨acc, hget, hAddr⟩ := h portId' A ((get_address_ok_iff k ctx portId' A).2 hA)
        refine ⟨acc, ?_, hAddr⟩
        have hne : k.AccAddressFromBech32 A ≠ GenerateAddress k portId := by
          intro heq
          rw [GetAccount, heq, hacc] at hget
          exact Option.noConfusion hget
        simpa [GetAccount, setAt, hne] using hget

theorem indexInvariant_set (k : Keeper) (ctx : Ctx) (portId address : GoString)
    (h : IndexInvariant k ctx)
    (hacc : ∃ acc, GetAccount ctx (k.AccAddressFromBech32 address) = some acc ∧
      acc.Address = address) :
    IndexInvariant k (SetInterchainAccountAddress k ctx portId address).2 := by
  intro portId' A hA
  rw [get_address_ok_iff] at hA
  simp only [SetInterchainAccountAddress, setAt] at hA
  by_cases hk : k.KeyOwnerAccount portId' = k.KeyOwnerAccount portId
  · simp only [hk, if_true, Option.some.injEq] at hA
    subst hA
    exact hacc
  · simp only [hk, if_false] at hA
    exact h portId' A ((get_address_ok_iff k ctx portId' A).2 hA)

/-! ## Registration: round trip, single registration, effects, failure -/

/-- C1: round trip. If `RegisterInterchainAccount(portId)` succeeds and the
account it returns has address string `A`, then `GetInterchainAccountAddress(portId)`
on the resulting state succeeds and returns exactly `A`. -/
theorem register_get_address_roundtrip (k : Keeper) (ctx ctx' : Ctx) (portId : GoString)
    (acc : IBCAccount)
    (h : RegisterInterchainAccount k ctx portId = (Except.ok acc, ctx')) :
    (GetInterchainAccountAddress k ctx' portId).1 = Except.ok acc.BaseAccount.Address := by
  cases hacc : ctx.accounts (GenerateAddress k portId) with
  | some account =>
      rw [register_of_account_some k ctx portId account hacc] at h
      simp at h
  | none =>
      rw [register_of_account_none k ctx portId hacc] at h
      simp only [Prod.mk.injEq, Except.ok.injEq] at h
      obtain ⟨rfl, rfl⟩ := h
      simp [GetInterchainAccountAddress, setAt]

/-- Witness of C1 on the sample port in the empty state. -/
theorem register_get_address_roundtrip_witness :
    RegisterInterchainAccount sampleKeeper Ctx.empty samplePort
        = (Except.ok sampleAccount, sampleRegistered) ∧
      (GetInterchainAccountAddress sampleKeeper sampleRegistered samplePort).1
        = Except.ok sampleAccount.BaseAccount.Address :=
  ⟨by rfl, register_get_address_roundtrip sampleKeeper Ctx.empty sampleRegistered samplePort
    sampleAccount (by rfl)⟩

/-- C2: `RegisterInterchainAccount` succeeds at most once per port. If
`RegisterInterchainAccount(portId)` succeeds, calling it again on the resulting
state fails with `ErrAccountAlreadyExist`, wrapped with the text of the account
registered by the first call, and changes nothing. -/
theorem register_twice_fails (k : Keeper) (ctx ctx' : Ctx) (portId : GoString)
    (acc : IBCAccount)
    (h : RegisterInterchainAccount k ctx portId = (Except.ok acc, ctx')) :
    RegisterInterchainAccount k ctx' portId =
      (Except.error (Wrap Err.ErrAccountAlreadyExist (k.accountString (AccountI.ibc acc))),
       ctx') := by
  cases hacc : ctx.accounts (GenerateAddress k portId) with
  | some account =>
      rw [register_of_account_some k ctx portId account hacc] at h
      simp at h
  | none =>
      rw [register_of_account_none k ctx portId hacc] at h
      simp only [Prod.mk.injEq, Except.ok.injEq] at h
      obtain ⟨rfl, rfl⟩ := h
      apply register_of_account_some
      simp [setAt]

/-- Witness of C2 on the sample port in the empty state. -/
theorem register_twice_fails_witness :
    RegisterInterchainAccount sampleKeeper Ctx.empty samplePort
        = (Except.ok sampleAccount, sampleRegistered) ∧
      RegisterInterchainAccount sampleKeeper sampleRegistered samplePort
        = (Except.error (Wrap Err.ErrAccountAlreadyExist samplePort), sampleRegistered) :=
  ⟨by rfl, register_twice_fails sampleKeeper Ctx.empty sampleRegistered samplePort
    sampleAccount (by rfl)⟩

/-- C6: what a successful registration does. The returned account has address
`GenerateAddress(portId)` (as bytes, and in text form) and owning port `portId`;
no account was stored at that address before; the account store of the
resulting state holds the returned account there and is unchanged at every other
address. -/
theorem register_creates_one_account (k : Keeper) (ctx ctx' : Ctx) (portId : GoString)
    (acc : IBCAccount)
    (h : RegisterInterchainAccount k ctx portId = (Except.ok acc, ctx')) :
    (AccountI.ibc acc).GetAddress k = GenerateAddress k portId ∧
      acc.BaseAccount.Address = k.AccAddressString (GenerateAddress k portId) ∧
      acc.AccountOwner = portId ∧
      GetAccount ctx (GenerateAddress k portId) = none ∧
      GetAccount ctx' (GenerateAddress k portId) = some (AccountI.ibc acc) ∧
      ∀ addr, addr ≠ GenerateAddress k portId → GetAccount ctx' addr = GetAccount ctx addr := by
  cases hacc : ctx.accounts (GenerateAddress k portId) with
  | some account =>
      rw [register_of_account_some k ctx portId account hacc] at h
      simp at h
  | none =>
      rw [register_of_account_none k ctx portId hacc] at h
      simp only [Prod.mk.injEq, Except.ok.injEq] at h
      obtain ⟨rfl, rfl⟩ := h
      refine ⟨?_, rfl, rfl, hacc, ?_, ?_⟩
      · simp [AccountI.GetAddress, AccountI.Address, k.fromBech32_string]
      · simp [GetAccount, setAt]
      · intro addr hne
        simp [GetAccount, setAt, hne]

/-- Witness of C6 on the sample port in the empty state. -/
theorem register_creates_one_account_witness :
    RegisterInterchainAccount sampleKeeper Ctx.empty samplePort
        = (Except.ok sampleAccount, sampleRegistered) ∧
      GetAccount sampleRegistered (GenerateAddress sampleKeeper samplePort)
        = some (AccountI.ibc sampleAccount) :=
  ⟨by rfl, (register_creates_one_account sampleKeeper Ctx.empty sampleRegistered samplePort
    sampleAccount (by rfl)).2.2.2.2.1⟩

/-- C8: a failed registration leaves no trace. If `RegisterInterchainAccount(portId)`
returns an error, no account is returned and the resulting state is the state
before the call; in particular the account store and the index are unchanged. -/
theorem register_failure_no_trace (k : Keeper) (ctx : Ctx) (portId : GoString) (e : Err)
    (h : (RegisterInterchainAccount k ctx portId).1 = Except.error e) :
    (∀ acc, (RegisterInterchainAccount k ctx portId).1 ≠ Except.ok acc) ∧
      (RegisterInterchainAccount k ctx portId).2.accounts = ctx.accounts ∧
      (RegisterInterchainAccount k ctx portId).2.store = ctx.store ∧
      (RegisterInterchainAccount k ctx portId).2 = ctx := by
  cases hacc : ctx.accounts (GenerateAddress k portId) with
  | some account =>
      rw [register_of_account_some k ctx portId account hacc]
      simp
  | none =>
      rw [register_of_account_none k ctx portId hacc] at h
      simp at h

/-- Witness of C8: registering the sample port a second time. -/
theorem register_failure_no_trace_witness :
    (RegisterInterchainAccount sampleKeeper sampleRegistered samplePort).1
        = Except.error (Wrap Err.ErrAccountAlreadyExist samplePort) ∧
      (RegisterInterchainAccount sampleKeeper sampleRegistered samplePort).2
        = sampleRegistered :=
  ⟨by rfl, (register_failure_no_trace sampleKeeper sampleRegistered samplePort
    (Wrap Err.ErrAccountAlreadyExist samplePort) (by rfl)).2.2.2⟩

/-! ## Initiation: double initiation, effects, failure -/

/-- C3: if `InitInterchainAccount(connectionId, owner)` succeeds, a second call
with the same arguments on the resulting state fails with `ErrPortAlreadyBound`
wrapped with the port identifier. -/
theorem init_twice_fails (k : Keeper) (ctx ctx' : Ctx) (connectionId owner : GoString)
    (h : InitInterchainAccount k ctx connectionId owner = (none, ctx')) :
    InitInterchainAccount k ctx' connectionId owner =
      (some (Wrap Err.ErrPortAlreadyBound (k.GeneratePortId owner connectionId)), ctx') := by
  apply init_of_bound
  cases hb : IsBound ctx (k.GeneratePortId owner connectionId) with
  | true =>
      rw [init_of_bound k ctx connectionId owner hb] at h
      simp at h
  | false =>
      cases hc : ctx.capabilities (k.PortPath (k.GeneratePortId owner connectionId)) with
      | some c =>
          rw [init_of_claim_occupied k ctx connectionId owner c hb hc] at h
          simp at h
      | none =>
          rw [init_of_claim_free k ctx connectionId owner hb hc] at h
          simp only [Handler, BindPort, ClaimCapability, hc, Prod.mk.injEq] at h
          obtain ⟨-, rfl⟩ := h
          simp [IsBound, setAt]

/-- Witness of C3 on the sample scenario. -/
theorem init_twice_fails_witness :
    InitInterchainAccount sampleKeeper Ctx.empty (str "connection-0") (str "owner-A")
        = (none, sampleInitiated) ∧
      InitInterchainAccount sampleKeeper sampleInitiated (str "connection-0") (str "owner-A")
        = (some (Wrap Err.ErrPortAlreadyBound samplePort), sampleInitiated) :=
  ⟨by rfl, init_twice_fails sampleKeeper Ctx.empty sampleInitiated (str "connection-0")
    (str "owner-A") (by rfl)⟩

/-- C4: in a state where the port `GeneratePortId(owner, connectionId)` is bound,
`InitInterchainAccount(connectionId, owner)` returns `ErrPortAlreadyBound` and
the port bindings, the claimed capabilities and the dispatched messages, indeed
the whole state, are the same after the call as before it. -/
theorem init_bound_no_effect (k : Keeper) (ctx : Ctx) (connectionId owner : GoString)
    (h : IsBound ctx (k.GeneratePortId owner connectionId) = true) :
    (InitInterchainAccount k ctx connectionId owner).1
        = some (Wrap Err.ErrPortAlreadyBound (k.GeneratePortId owner connectionId)) ∧
      (InitInterchainAccount k ctx connectionId owner).2.ports = ctx.ports ∧
      (InitInterchainAccount k ctx connectionId owner).2.capabilities = ctx.capabilities ∧
      (InitInterchainAccount k ctx connectionId owner).2.dispatched = ctx.dispatched ∧
      (InitInterchainAccount k ctx connectionId owner).2 = ctx := by
  rw [init_of_bound k ctx connectionId owner h]
  simp

/-- Witness of C4: the sample scenario submitted a second time. -/
theorem init_bound_no_effect_witness :
    IsBound sampleInitiated (sampleKeeper.GeneratePortId (str "owner-A") (str "connection-0"))
        = true ∧
      (InitInterchainAccount sampleKeeper sampleInitiated (str "connection-0")
        (str "owner-A")).2.dispatched = sampleInitiated.dispatched :=
  ⟨by decide, (init_bound_no_effect sampleKeeper sampleInitiated (str "connection-0")
    (str "owner-A") (by decide)).2.2.2.1⟩

/-- C5: what a successful initiation does. With `X = GeneratePortId(owner, connectionId)`:
the port was unbound before; `X` is bound in the port authority to the capability
the bind returned; that capability is claimed under `PortPath(X)`; and exactly one
message was dispatched, a channel-open-init in state INIT whose port is `X`, whose
ordering is ORDERED, whose connection hops are `[connectionId]`, whose
counterparty port and version are the module's port id and version, and whose
signer is the module name. -/
theorem init_success_effects (k : Keeper) (ctx ctx' : Ctx) (connectionId owner : GoString)
    (h : InitInterchainAccount k ctx connectionId owner = (none, ctx')) :
    IsBound ctx (k.GeneratePortId owner connectionId) = false ∧
      IsBound ctx' (k.GeneratePortId owner connectionId) = true ∧
      ctx'.ports (k.GeneratePortId owner connectionId)
        = some (BindPort ctx (k.GeneratePortId owner connectionId)).1 ∧
      ctx'.capabilities (k.PortPath (k.GeneratePortId owner connectionId))
        = some (BindPort ctx (k.GeneratePortId owner connectionId)).1 ∧
      ∃ msg : MsgChannelOpenInit,
        ctx'.dispatched = ctx.dispatched ++ [msg] ∧
        msg.PortId = k.GeneratePortId owner connectionId ∧
        msg.Channel.State = ChannelState.INIT ∧
        msg.Channel.Ordering = Order.ORDERED ∧
        msg.Channel.ConnectionHops = [connectionId] ∧
        msg.Channel.Counterparty.PortId = k.PortID ∧
        msg.Channel.Version = k.Version ∧
        msg.Signer = k.ModuleName := by
  cases hb : IsBound ctx (k.GeneratePortId owner connectionId) with
  | true =>
      rw [init_of_bound k ctx connectionId owner hb] at h
      simp at h
  | false =>
      cases hc : ctx.capabilities (k.PortPath (k.GeneratePortId owner connectionId)) with
      | some c =>
          rw [init_of_claim_occupied k ctx connectionId owner c hb hc] at h
          simp at h
      | none =>
          rw [init_of_claim_free k ctx connectionId owner hb hc] at h
          simp only [Handler, BindPort, ClaimCapability, hc, Prod.mk.injEq] at h
          obtain ⟨-, rfl⟩ := h
          refine ⟨rfl, ?_, ?_, ?_, _, rfl, ?_⟩
          · simp [IsBound, setAt]
          · simp [BindPort, setAt]
          · simp [BindPort, setAt]
          · simp [NewMsgChannelOpenInit]

/-- Witness of C5 on the sample scenario. -/
theorem init_success_effects_witness :
    InitInterchainAccount sampleKeeper Ctx.empty (str "connection-0") (str "owner-A")
        = (none, sampleInitiated) ∧
      sampleInitiated.ports (sampleKeeper.GeneratePortId (str "owner-A") (str "connection-0"))
        = some (BindPort Ctx.empty
            (sampleKeeper.GeneratePortId (str "owner-A") (str "connection-0"))).1 :=
  ⟨by rfl, (init_success_effects sampleKeeper Ctx.empty sampleInitiated (str "connection-0")
    (str "owner-A") (by rfl)).2.2.1⟩

/-- C7, the claim as stated fails: with a dispatcher that rejects the message,
`InitInterchainAccount` on the empty state returns the dispatcher's error, and
the state it returns has the sample port bound and its capability claimed, unlike
the state before the call. -/
theorem init_failure_trace_counterexample :
    (InitInterchainAccount rejectingKeeper Ctx.empty (str "connection-0") (str "owner-A")).1
        = some (Err.external (str "handshake rejected")) ∧
      (InitInterchainAccount rejectingKeeper Ctx.empty (str "connection-0")
        (str "owner-A")).2.ports samplePort = some { Index := 0 } ∧
      Ctx.empty.ports samplePort = none ∧
      ¬ ((InitInterchainAccount rejectingKeeper Ctx.empty (str "connection-0")
            (str "owner-A")).2.ports = Ctx.empty.ports ∧
         (InitInterchainAccount rejectingKeeper Ctx.empty (str "connection-0")
            (str "owner-A")).2.capabilities = Ctx.empty.capabilities) := by
  refine ⟨by rfl, by decide, by rfl, ?_⟩
  intro h
  have hp := congrFun h.1 samplePort
  revert hp
  decide

/-- C7, amended: what a failed `InitInterchainAccount` leaves behind, with
`X = GeneratePortId(owner, connectionId)`. If `X` was bound, the error is
`ErrPortAlreadyBound` and the state is unchanged. If `X` was unbound, the
returned state has `X` bound to the new capability; when the path of `X` was
already claimed the error is the wrapped claim failure and the claimed
capabilities are unchanged, and otherwise the error is the dispatcher's and the
new capability is claimed under the path of `X`. -/
theorem init_failure_trace (k : Keeper) (ctx : Ctx) (connectionId owner : GoString) (e : Err)
    (h : (InitInterchainAccount k ctx connectionId owner).1 = some e) :
    (IsBound ctx (k.GeneratePortId owner connectionId) = true →
        e = Wrap Err.ErrPortAlreadyBound (k.GeneratePortId owner connectionId) ∧
        (InitInterchainAccount k ctx connectionId owner).2 = ctx) ∧
      (IsBound ctx (k.GeneratePortId owner connectionId) = false →
        (InitInterchainAccount k ctx connectionId owner).2.ports
          = setAt ctx.ports (k.GeneratePortId owner connectionId)
              (BindPort ctx (k.GeneratePortId owner connectionId)).1 ∧
        (∀ c, ctx.capabilities (k.PortPath (k.GeneratePortId owner connectionId)) = some c →
          e = Wrap Err.ErrOwnerClaimed (str "unable to bind to newly generated portID") ∧
          (InitInterchainAccount k ctx connectionId owner).2.capabilities = ctx.capabilities) ∧
        (ctx.capabilities (k.PortPath (k.GeneratePortId owner connectionId)) = none →
          k.handler
              (ClaimCapability (BindPort ctx (k.GeneratePortId owner connectionId)).2
                (BindPort ctx (k.GeneratePortId owner connectionId)).1
                (k.PortPath (k.GeneratePortId owner connectionId))).2
              (NewMsgChannelOpenInit (k.GeneratePortId owner connectionId) k.Version
                Order.ORDERED [connectionId] k.PortID k.ModuleName) = some e ∧
          (InitInterchainAccount k ctx connectionId owner).2.capabilities
            = setAt ctx.capabilities (k.PortPath (k.GeneratePortId owner connectionId))
                (BindPort ctx (k.GeneratePortId owner connectionId)).1)) := by
  refine ⟨fun hb => ?_, fun hb => ?_⟩
  · rw [init_of_bound k ctx connectionId owner hb] at h ⊢
    simp only [Option.some.injEq] at h
    exact ⟨h.symm, rfl⟩
  · cases hc : ctx.capabilities (k.PortPath (k.GeneratePortId owner connectionId)) with
    | some c =>
        rw [init_of_claim_occupied k ctx connectionId owner c hb hc] at h ⊢
        simp only [Option.some.injEq] at h
        refine ⟨by simp [BindPort], fun c' _ => ⟨h.symm, by simp [BindPort]⟩, fun hn => ?_⟩
        exact Option.noConfusion hn
    | none =>
        rw [init_of_claim_free k ctx connectionId owner hb hc] at h ⊢
        refine ⟨by simp [Handler, BindPort, ClaimCapability, hc], fun c' hc' => ?_, fun _ => ?_⟩
        · exact Option.noConfusion hc'
        · exact ⟨by simpa [Handler] using h, by simp [Handler, BindPort, ClaimCapability, hc]⟩

/-- Witness of the amended C7: the path of the sample port is claimed, the port
is not bound; the call fails on the claim and leaves the port bound. -/
theorem init_failure_trace_witness :
    (InitInterchainAccount sampleKeeper sampleClaimedOnly (str "connection-0") (str "owner-A")).1
        = some (Wrap Err.ErrOwnerClaimed (str "unable to bind to newly generated portID")) ∧
      IsBound sampleClaimedOnly
        (sampleKeeper.GeneratePortId (str "owner-A") (str "connection-0")) = false ∧
      (InitInterchainAccount sampleKeeper sampleClaimedOnly (str "connection-0")
          (str "owner-A")).2.ports
        = setAt sampleClaimedOnly.ports
            (sampleKeeper.GeneratePortId (str "owner-A") (str "connection-0"))
            (BindPort sampleClaimedOnly
              (sampleKeeper.GeneratePortId (str "owner-A") (str "connection-0"))).1 :=
  ⟨by rfl, by decide,
    ((init_failure_trace sampleKeeper sampleClaimedOnly (str "connection-0") (str "owner-A")
      (Wrap Err.ErrOwnerClaimed (str "unable to bind to newly generated portID"))
      (by rfl)).2 (by decide)).1⟩

/-! ## The index invariant -/

/-- C9, the claim as stated fails: the invariant holds in the empty state, and
`SetInterchainAccountAddress` on the empty state writes an index entry for the
sample port although the account store holds no account at all. -/
theorem index_invariant_counterexample :
    IndexInvariant sampleKeeper Ctx.empty ∧
      (GetInterchainAccountAddress sampleKeeper
          (SetInterchainAccountAddress sampleKeeper Ctx.empty samplePort (str "addr-1")).2
          samplePort).1 = Except.ok (str "addr-1") ∧
      (∀ addr, GetAccount
          (SetInterchainAccountAddress sampleKeeper Ctx.empty samplePort (str "addr-1")).2
          addr = none) ∧
      ¬ IndexInvariant sampleKeeper
          (SetInterchainAccountAddress sampleKeeper Ctx.empty samplePort (str "addr-1")).2 := by
  refine ⟨?_, by rfl, fun _ => rfl, ?_⟩
  · intro portId A hA
    simp [GetInterchainAccountAddress, Ctx.empty] at hA
  · intro h
    obtain ⟨acc, hacc, -⟩ := h samplePort (str "addr-1") (by rfl)
    simp [GetAccount, SetInterchainAccountAddress, Ctx.empty] at hacc

/-- C9, amended: the Owner-Account Index invariant holds in the empty state and
is preserved, for all arguments, by `InitInterchainAccount`,
`RegisterInterchainAccount`, `GetInterchainAccountAddress` and `GetIBCAccount`;
`SetInterchainAccountAddress(portId, address)` preserves it when the account
store holds, at the address `address` denotes, an account whose address is
exactly `address`. -/
theorem index_invariant_preserved (k : Keeper) :
    IndexInvariant k Ctx.empty ∧
      (∀ ctx connectionId owner, IndexInvariant k ctx →
        IndexInvariant k (InitInterchainAccount k ctx connectionId owner).2) ∧
      (∀ ctx portId, IndexInvariant k ctx →
        IndexInvariant k (RegisterInterchainAccount k ctx portId).2) ∧
      (∀ ctx portId, IndexInvariant k ctx →
        IndexInvariant k (GetInterchainAccountAddress k ctx portId).2) ∧
      (∀ ctx addr, IndexInvariant k ctx → IndexInvariant k (GetIBCAccount k ctx addr).2) ∧
      (∀ ctx portId address, IndexInvariant k ctx →
        (∃ acc, GetAccount ctx (k.AccAddressFromBech32 address) = some acc ∧
          acc.Address = address) →
        IndexInvariant k (SetInterchainAccountAddress k ctx portId address).2) := by
  refine ⟨?_, ?_, ?_, ?_, ?_, ?_⟩
  · intro portId A hA
    simp [GetInterchainAccountAddress, Ctx.empty] at hA
  · intro ctx connectionId owner h
    exact indexInvariant_of_eq k ctx _ (init_accounts_store k ctx connectionId owner).1
      (init_accounts_store k ctx connectionId owner).2 h
  · intro ctx portId h
    exact indexInvariant_register k ctx portId h
  · intro ctx portId h
    rw [get_address_state]
    exact h
  · intro ctx addr h
    rw [getIBCAccount_state]
    exact h
  · intro ctx portId address h hacc
    exact indexInvariant_set k ctx portId address h hacc

/-- Witness of the amended C9: the invariant holds after registering the sample
port in the empty state, and after re-writing its index entry with the address
of the registered account. -/
theorem index_invariant_preserved_witness :
    IndexInvariant sampleKeeper sampleRegistered ∧
      IndexInvariant sampleKeeper
        (SetInterchainAccountAddress sampleKeeper sampleRegistered (str "other-port")
          samplePort).2 :=
  ⟨(index_invariant_preserved sampleKeeper).2.2.1 Ctx.empty samplePort
      (index_invariant_preserved sampleKeeper).1,
    (index_invariant_preserved sampleKeeper).2.2.2.2.2 sampleRegistered (str "other-port")
      samplePort
      ((index_invariant_preserved sampleKeeper).2.2.1 Ctx.empty samplePort
        (index_invariant_preserved sampleKeeper).1)
      ⟨AccountI.ibc sampleAccount, by decide, by decide⟩⟩

/-! ## Lookup of an interchain account -/

/-- C10: `GetIBCAccount(addr)` fails with `ErrIBCAccountNotFound` exactly when
the account store holds no account at `addr` or holds one that is not an
interchain account; every failure is of that kind; when the store holds an
interchain account at `addr` the call succeeds and returns it; and the state is
never changed. -/
theorem getIBCAccount_spec (k : Keeper) (ctx : Ctx) (addr : Bytes) :
    ((∃ e, (GetIBCAccount k ctx addr).1 = Except.error e ∧
          e.Is Err.ErrIBCAccountNotFound = true) ↔
        (GetAccount ctx addr = none ∨
          ∃ acc, GetAccount ctx addr = some acc ∧ ∀ ia, acc ≠ AccountI.ibc ia)) ∧
      (∀ e, (GetIBCAccount k ctx addr).1 = Except.error e →
        e.Is Err.ErrIBCAccountNotFound = true) ∧
      (∀ ia, GetAccount ctx addr = some (AccountI.ibc ia) →
        (GetIBCAccount k ctx addr).1 = Except.ok ia) ∧
      (GetIBCAccount k ctx addr).2 = ctx := by
  unfold GetIBCAccount
  cases hacc : GetAccount ctx addr with
  | none => simp [Wrap, Err.Is]
  | some acc =>
      cases acc with
      | base a => simp [Wrap, Err.Is]
      | module a name => simp [Wrap, Err.Is]
      | ibc a => simp

/-! ## Address derivation -/

/-- C13: for every identifier, the empty one included, `GenerateAddress` returns
the first 20 bytes of the hash of the identifier's bytes, which is exactly the
fixed address length of the account model; and the result depends on the
identifier alone: any two keepers using the truncated hash return the same bytes
for the same identifier. -/
theorem generateAddress_length (k : Keeper)
    (h : ∀ bz, k.SumTruncated bz = tmhash.SumTruncated bz) (identifier : GoString) :
    (GenerateAddress k identifier).length = 20 ∧
      (GenerateAddress k identifier).length = AddrLen ∧
      GenerateAddress k identifier = (tmhash.Sum identifier).take 20 ∧
      (GenerateAddress k []).length = 20 ∧
      ∀ k' : Keeper, (∀ bz, k'.SumTruncated bz = tmhash.SumTruncated bz) →
        GenerateAddress k' identifier = GenerateAddress k identifier := by
  refine ⟨?_, ?_, ?_, ?_, ?_⟩
  · rw [GenerateAddress, h, tmhash_SumTruncated_length]
  · rw [GenerateAddress, h, tmhash_SumTruncated_length, AddrLen]
  · rw [GenerateAddress, h, tmhash.SumTruncated, tmhash.TruncatedSize]
  · rw [GenerateAddress, h, tmhash_SumTruncated_length]
  · intro k' h'
    rw [GenerateAddress, GenerateAddress, h, h']

/-- Witness of C13: the address of the sample port under the truncated hash. -/
theorem generateAddress_length_witness :
    (∀ bz, tmhashKeeper.SumTruncated bz = tmhash.SumTruncated bz) ∧
      (GenerateAddress tmhashKeeper samplePort).length = 20 :=
  ⟨fun _ => rfl, (generateAddress_length tmhashKeeper (fun _ => rfl) samplePort).1⟩

/-! ## The index: lookup and overwrite -/

/-- C11: `GetInterchainAccountAddress(portId)` fails with `ErrIBCAccountNotFound`
exactly when the index holds no entry under the key of `portId`, the error then
being that sentinel wrapped with `portId`; when an entry exists the call
succeeds and returns the stored value unchanged; in the empty state it fails for
every `portId`; and it never changes the state. -/
theorem getInterchainAccountAddress_spec (k : Keeper) (ctx : Ctx) (portId : GoString) :
    ((∃ e, (GetInterchainAccountAddress k ctx portId).1 = Except.error e ∧
          e.Is Err.ErrIBCAccountNotFound = true) ↔
        ctx.store (k.KeyOwnerAccount portId) = none) ∧
      (∀ e, (GetInterchainAccountAddress k ctx portId).1 = Except.error e →
        e = Wrap Err.ErrIBCAccountNotFound portId) ∧
      (∀ v, ctx.store (k.KeyOwnerAccount portId) = some v →
        (GetInterchainAccountAddress k ctx portId).1 = Except.ok v) ∧
      (GetInterchainAccountAddress k Ctx.empty portId).1
        = Except.error (Wrap Err.ErrIBCAccountNotFound portId) ∧
      (GetInterchainAccountAddress k ctx portId).2 = ctx := by
  refine ⟨?_, ?_, ?_, rfl, get_address_state k ctx portId⟩
  · cases hs : ctx.store (k.KeyOwnerAccount portId) <;>
      simp [GetInterchainAccountAddress, hs, Wrap, Err.Is]
  · intro e he
    cases hs : ctx.store (k.KeyOwnerAccount portId) with
    | none =>
        simp only [GetInterchainAccountAddress, hs, Except.error.injEq] at he
        exact he.symm
    | some v => simp [GetInterchainAccountAddress, hs] at he
  · intro v hv
    exact (get_address_ok_iff k ctx portId v).2 hv

/-- Witness of C11: an unknown port in the state where only the sample port is
registered, and the sample port itself. -/
theorem getInterchainAccountAddress_spec_witness :
    (GetInterchainAccountAddress sampleKeeper sampleRegistered (str "unknown-port")).1
        = Except.error (Wrap Err.ErrIBCAccountNotFound (str "unknown-port")) ∧
      (GetInterchainAccountAddress sampleKeeper sampleRegistered samplePort).1
        = Except.ok samplePort :=
  ⟨by
      obtain ⟨e, he, -⟩ := (getInterchainAccountAddress_spec sampleKeeper sampleRegistered
        (str "unknown-port")).1.2 (by decide)
      rw [he, (getInterchainAccountAddress_spec sampleKeeper sampleRegistered
        (str "unknown-port")).2.1 e he],
    (getInterchainAccountAddress_spec sampleKeeper sampleRegistered samplePort).2.2.1
      samplePort (by decide)⟩

/-- C12: `SetInterchainAccountAddress` is an unconditional overwrite. For every
state, port and address, whatever the index held for the port before, the call
returns `address`, and `GetInterchainAccountAddress(portId)` on the resulting
state succeeds and returns `address`. -/
theorem set_then_get_address (k : Keeper) (ctx : Ctx) (portId address : GoString) :
    (SetInterchainAccountAddress k ctx portId address).1 = address ∧
      (GetInterchainAccountAddress k (SetInterchainAccountAddress k ctx portId address).2
          portId).1 = Except.ok address := by
  refine ⟨rfl, ?_⟩
  rw [get_address_ok_iff]
  simp [SetInterchainAccountAddress, setAt]

/-! ## Registration and lookup -/

/-- C16: `RegisterInterchainAccount(portId)` succeeds exactly when the account
store holds no account at `GenerateAddress(portId)` and fails exactly when it
holds one; two states that agree on the account store, whatever their port
bindings, capabilities, dispatched messages and index, give the same
success or failure, with the same error. -/
theorem register_succeeds_iff (k : Keeper) (ctx : Ctx) (portId : GoString) :
    ((∃ acc, (RegisterInterchainAccount k ctx portId).1 = Except.ok acc) ↔
        GetAccount ctx (GenerateAddress k portId) = none) ∧
      ((∃ e, (RegisterInterchainAccount k ctx portId).1 = Except.error e) ↔
        ∃ account, GetAccount ctx (GenerateAddress k portId) = some account) ∧
      ∀ ctx2 : Ctx, ctx2.accounts = ctx.accounts →
        ((∃ acc, (RegisterInterchainAccount k ctx2 portId).1 = Except.ok acc) ↔
          (∃ acc, (RegisterInterchainAccount k ctx portId).1 = Except.ok acc)) ∧
        ∀ e, (RegisterInterchainAccount k ctx2 portId).1 = Except.error e ↔
          (RegisterInterchainAccount k ctx portId).1 = Except.error e := by
  have key : ∀ c : Ctx,
      ((∃ acc, (RegisterInterchainAccount k c portId).1 = Except.ok acc) ↔
        GetAccount c (GenerateAddress k portId) = none) ∧
      ((∃ e, (RegisterInterchainAccount k c portId).1 = Except.error e) ↔
        ∃ account, GetAccount c (GenerateAddress k portId) = some account) := by
    intro c
    cases hacc : c.accounts (GenerateAddress k portId) with
    | some account =>
        rw [register_of_account_some k c portId account hacc]
        simp [GetAccount, hacc]
    | none =>
        rw [register_of_account_none k c portId hacc]
        simp [GetAccount, hacc]
  refine ⟨(key ctx).1, (key ctx).2, ?_⟩
  intro ctx2 h2
  constructor
  · rw [(key ctx2).1, (key ctx).1, GetAccount, GetAccount, h2]
  · intro e
    cases hacc : ctx.accounts (GenerateAddress k portId) with
    | some account =>
        rw [register_of_account_some k ctx portId account hacc,
          register_of_account_some k ctx2 portId account (by rw [h2]; exact hacc)]
    | none =>
        rw [register_of_account_none k ctx portId hacc,
          register_of_account_none k ctx2 portId (by rw [h2]; exact hacc)]
        simp

/-- Witness of C16: the sample port registers in the state left by a successful
initiation, which has the same (empty) account store as the empty state. -/
theorem register_succeeds_iff_witness :
    sampleInitiated.accounts = Ctx.empty.accounts ∧
      ((∃ acc, (RegisterInterchainAccount sampleKeeper sampleInitiated samplePort).1
          = Except.ok acc) ↔
        (∃ acc, (RegisterInterchainAccount sampleKeeper Ctx.empty samplePort).1
          = Except.ok acc)) :=
  ⟨by rfl, ((register_succeeds_iff sampleKeeper Ctx.empty samplePort).2.2 sampleInitiated
    (by rfl)).1⟩

/-- C17: if `RegisterInterchainAccount(portId)` succeeds, then
`GetIBCAccount(GenerateAddress(portId))` on the resulting state succeeds and
returns the very account the registration returned, whose address is
`GenerateAddress(portId)` and whose owning port is `portId`. -/
theorem register_then_getIBCAccount (k : Keeper) (ctx ctx' : Ctx) (portId : GoString)
    (acc : IBCAccount)
    (h : RegisterInterchainAccount k ctx portId = (Except.ok acc, ctx')) :
    GetIBCAccount k ctx' (GenerateAddress k portId) = (Except.ok acc, ctx') ∧
      (AccountI.ibc acc).GetAddress k = GenerateAddress k portId ∧
      acc.AccountOwner = portId := by
  cases hacc : ctx.accounts (GenerateAddress k portId) with
  | some account =>
      rw [register_of_account_some k ctx portId account hacc] at h
      simp at h
  | none =>
      rw [register_of_account_none k ctx portId hacc] at h
      simp only [Prod.mk.injEq, Except.ok.injEq] at h
      obtain ⟨rfl, rfl⟩ := h
      refine ⟨?_, ?_, rfl⟩
      · simp [GetIBCAccount, GetAccount, setAt]
      · simp [AccountI.GetAddress, AccountI.Address, k.fromBech32_string]

/-- Witness of C17 on the sample port in the empty state. -/
theorem register_then_getIBCAccount_witness :
    RegisterInterchainAccount sampleKeeper Ctx.empty samplePort
        = (Except.ok sampleAccount, sampleRegistered) ∧
      GetIBCAccount sampleKeeper sampleRegistered (GenerateAddress sampleKeeper samplePort)
        = (Except.ok sampleAccount, sampleRegistered) :=
  ⟨by rfl, (register_then_getIBCAccount sampleKeeper Ctx.empty sampleRegistered samplePort
    sampleAccount (by rfl)).1⟩

/-! ## Failure of an initiation -/

/-- C15: failure characterisation of `InitInterchainAccount`, with
`X = GeneratePortId(owner, connectionId)`. The call returns an error exactly
when `X` is already bound, or claiming the new capability under the path of `X`
fails, or the dispatcher returns an error for the channel-open-init message; and
when `X` is unbound and the claim succeeds, the value returned is exactly what
the dispatcher returned, its error unchanged or no error. -/
theorem init_failure_characterisation (k : Keeper) (ctx : Ctx)
    (connectionId owner : GoString) :
    ((∃ e, (InitInterchainAccount k ctx connectionId owner).1 = some e) ↔
        (IsBound ctx (k.GeneratePortId owner connectionId) = true ∨
          (∃ e, (ClaimCapability (BindPort ctx (k.GeneratePortId owner connectionId)).2
              (BindPort ctx (k.GeneratePortId owner connectionId)).1
              (k.PortPath (k.GeneratePortId owner connectionId))).1 = some e) ∨
          (∃ e, k.handler
              (ClaimCapability (BindPort ctx (k.GeneratePortId owner connectionId)).2
                (BindPort ctx (k.GeneratePortId owner connectionId)).1
                (k.PortPath (k.GeneratePortId owner connectionId))).2
              (NewMsgChannelOpenInit (k.GeneratePortId owner connectionId) k.Version
                Order.ORDERED [connectionId] k.PortID k.ModuleName) = some e))) ∧
      (IsBound ctx (k.GeneratePortId owner connectionId) = false →
        (ClaimCapability (BindPort ctx (k.GeneratePortId owner connectionId)).2
            (BindPort ctx (k.GeneratePortId owner connectionId)).1
            (k.PortPath (k.GeneratePortId owner connectionId))).1 = none →
        (InitInterchainAccount k ctx connectionId owner).1
          = k.handler
              (ClaimCapability (BindPort ctx (k.GeneratePortId owner connectionId)).2
                (BindPort ctx (k.GeneratePortId owner connectionId)).1
                (k.PortPath (k.GeneratePortId owner connectionId))).2
              (NewMsgChannelOpenInit (k.GeneratePortId owner connectionId) k.Version
                Order.ORDERED [connectionId] k.PortID k.ModuleName)) := by
  cases hb : IsBound ctx (k.GeneratePortId owner connectionId) with
  | true =>
      rw [init_of_bound k ctx connectionId owner hb]
      simp
  | false =>
      cases hc : ctx.capabilities (k.PortPath (k.GeneratePortId owner connectionId)) with
      | some c =>
          rw [init_of_claim_occupied k ctx connectionId owner c hb hc]
          simp [ClaimCapability, BindPort, hc]
      | none =>
          rw [init_of_claim_free k ctx connectionId owner hb hc]
          simp [Handler, ClaimCapability, BindPort, hc]

/-- Witness of C15: with the rejecting dispatcher on the empty state the port is
unbound, the claim succeeds, and the call returns the dispatcher's error. -/
theorem init_failure_characterisation_witness :
    (InitInterchainAccount rejectingKeeper Ctx.empty (str "connection-0") (str "owner-A")).1
      = rejectingKeeper.handler
          (ClaimCapability
            (BindPort Ctx.empty
              (rejectingKeeper.GeneratePortId (str "owner-A") (str "connection-0"))).2
            (BindPort Ctx.empty
              (rejectingKeeper.GeneratePortId (str "owner-A") (str "connection-0"))).1
            (rejectingKeeper.PortPath
              (rejectingKeeper.GeneratePortId (str "owner-A") (str "connection-0")))).2
          (NewMsgChannelOpenInit
            (rejectingKeeper.GeneratePortId (str "owner-A") (str "connection-0"))
            rejectingKeeper.Version Order.ORDERED [str "connection-0"] rejectingKeeper.PortID
            rejectingKeeper.ModuleName) :=
  (init_failure_characterisation rejectingKeeper Ctx.empty (str "connection-0")
    (str "owner-A")).2 (by decide) (by rfl)

/-! ## Error messages and the offending identifier -/

theorem infix_wrap_description (text : Err → GoString) (parent : Err) (description : GoString) :
    description <:+: (Wrap parent description).Error text :=
  ⟨[], str ": " ++ parent.Error text, by simp [Wrap, Err.Error]⟩

theorem error_wrap_sentinel (text : Err → GoString) (description : GoString) :
    (Wrap Err.ErrIBCAccountNotFound description).Error text
        = description ++ str ": " ++ text Err.ErrIBCAccountNotFound ∧
      (Wrap Err.ErrOwnerClaimed description).Error text
        = description ++ str ": " ++ text Err.ErrOwnerClaimed := by
  simp [Wrap, Err.Error]

/-- C14, the claim as stated fails: on the empty state `GetIBCAccount` at the
address of the sample port fails with a message that contains neither the
address nor its text form, and `InitInterchainAccount` with a rejecting
dispatcher fails with the dispatcher's own message, which does not contain the
port identifier. -/
theorem error_identifier_counterexample :
    (GetIBCAccount sampleKeeper Ctx.empty (GenerateAddress sampleKeeper samplePort)).1
        = Except.error (Wrap Err.ErrIBCAccountNotFound (str "there is no account")) ∧
      (Wrap Err.ErrIBCAccountNotFound (str "there is no account")).Error sampleErrorText
        = str "there is no account: interchain account not found" ∧
      ¬ (GenerateAddress sampleKeeper samplePort <:+:
          (Wrap Err.ErrIBCAccountNotFound (str "there is no account")).Error sampleErrorText) ∧
      ¬ (sampleKeeper.AccAddressString (GenerateAddress sampleKeeper samplePort) <:+:
          (Wrap Err.ErrIBCAccountNotFound (str "there is no account")).Error sampleErrorText) ∧
      (InitInterchainAccount rejectingKeeper Ctx.empty (str "connection-0") (str "owner-A")).1
        = some (Err.external (str "handshake rejected")) ∧
      ¬ (rejectingKeeper.GeneratePortId (str "owner-A") (str "connection-0") <:+:
          (Err.external (str "handshake rejected")).Error sampleErrorText) := by
  refine ⟨by rfl, by decide, by decide, by decide, by rfl, by decide⟩

/-- C14, amended: which errors name the offending identifier, for any
descriptions `text` of the sentinels. The `ErrPortAlreadyBound` error of
`InitInterchainAccount` and the error of `GetInterchainAccountAddress` contain
the port identifier; the error of `RegisterInterchainAccount` contains the text
of the account already stored at the derived address; the errors of
`GetIBCAccount` are one of two fixed texts that do not depend on the address;
and when the port is unbound `InitInterchainAccount` returns either the claim
failure under a fixed text or the dispatcher's error unchanged. -/
theorem error_identifier (text : Err → GoString) (k : Keeper) (ctx : Ctx) :
    (∀ connectionId owner e, (InitInterchainAccount k ctx connectionId owner).1 = some e →
        IsBound ctx (k.GeneratePortId owner connectionId) = true →
        k.GeneratePortId owner connectionId <:+: e.Error text) ∧
      (∀ portId e, (GetInterchainAccountAddress k ctx portId).1 = Except.error e →
        portId <:+: e.Error text) ∧
      (∀ portId e, (RegisterInterchainAccount k ctx portId).1 = Except.error e →
        ∃ account, GetAccount ctx (GenerateAddress k portId) = some account ∧
          k.accountString account <:+: e.Error text) ∧
      (∀ addr e, (GetIBCAccount k ctx addr).1 = Except.error e →
        e.Error text
            = str "there is no account" ++ str ": " ++ text Err.ErrIBCAccountNotFound ∨
          e.Error text
            = str "account is not an IBC account" ++ str ": "
                ++ text Err.ErrIBCAccountNotFound) ∧
      (∀ connectionId owner e, (InitInterchainAccount k ctx connectionId owner).1 = some e →
        IsBound ctx (k.GeneratePortId owner connectionId) = false →
        e.Error text
            = str "unable to bind to newly generated portID" ++ str ": "
                ++ text Err.ErrOwnerClaimed ∨
          k.handler
              (ClaimCapability (BindPort ctx (k.GeneratePortId owner connectionId)).2
                (BindPort ctx (k.GeneratePortId owner connectionId)).1
                (k.PortPath (k.GeneratePortId owner connectionId))).2
              (NewMsgChannelOpenInit (k.GeneratePortId owner connectionId) k.Version
                Order.ORDERED [connectionId] k.PortID k.ModuleName) = some e) := by
  refine ⟨?_, ?_, ?_, ?_, ?_⟩
  · intro connectionId owner e he hb
    rw [init_of_bound k ctx connectionId owner hb] at he
    simp only [Option.some.injEq] at he
    subst he
    exact infix_wrap_description text _ _
  · intro portId e he
    cases hs : ctx.store (k.KeyOwnerAccount portId) with
    | none =>
        simp only [GetInterchainAccountAddress, hs, Except.error.injEq] at he
        subst he
        exact infix_wrap_description text _ _
    | some v => simp [GetInterchainAccountAddress, hs] at he
  · intro portId e he
    cases hacc : ctx.accounts (GenerateAddress k portId) with
    | some account =>
        rw [register_of_account_some k ctx portId account hacc] at he
        simp only [Except.error.injEq] at he
        subst he
        exact ⟨account, hacc, infix_wrap_description text _ _⟩
    | none =>
        rw [register_of_account_none k ctx portId hacc] at he
        simp at he
  · intro addr e he
    unfold GetIBCAccount at he
    cases hacc : GetAccount ctx addr with
    | none =>
        simp only [hacc, Except.error.injEq] at he
        subst he
        exact Or.inl (error_wrap_sentinel text _).1
    | some acc =>
        cases acc with
        | base a =>
            simp only [hacc, Except.error.injEq] at he
            subst he
            exact Or.inr (error_wrap_sentinel text _).1
        | module a name =>
            simp only [hacc, Except.error.injEq] at he
            subst he
            exact Or.inr (error_wrap_sentinel text _).1
        | ibc a => simp [hacc] at he
  · intro connectionId owner e he hb
    cases hc : ctx.capabilities (k.PortPath (k.GeneratePortId owner connectionId)) with
    | some c =>
        rw [init_of_claim_occupied k ctx connectionId owner c hb hc] at he
        simp only [Option.some.injEq] at he
        subst he
        exact Or.inl (error_wrap_sentinel text _).2
    | none =>
        rw [init_of_claim_free k ctx connectionId owner hb hc] at he
        exact Or.inr (by simpa [Handler] using he)

/-- Witness of the amended C14: looking up the sample port in the empty state
fails with a message that contains the port identifier. -/
theorem error_identifier_witness :
    (GetInterchainAccountAddress sampleKeeper Ctx.empty samplePort).1
        = Except.error (Wrap Err.ErrIBCAccountNotFound samplePort) ∧
      samplePort <:+: (Wrap Err.ErrIBCAccountNotFound samplePort).Error sampleErrorText :=
  ⟨by rfl, (error_identifier sampleErrorText sampleKeeper Ctx.empty).2.1 samplePort
    (Wrap Err.ErrIBCAccountNotFound samplePort) (by rfl)⟩

end ICA
